import Mathlib

/-!
Verification of the bare-earth reconstruction core
(`bare_earth_reconstructor.py`): the resolution scaler, the percentile
statistics engine, the threshold analyzer, the classification decision
engine and the pipeline orchestrator, shallowly embedded over exact
rational arithmetic.  Grids are modelled as functions from pixel
positions to `Option ℚ` (with `none` as the NoData sentinel), and
fallible computations return `Option`.
-/

namespace BareEarth

/-- Python `int()` applied to a real quantity truncates toward zero. -/
def pyInt (q : ℚ) : ℤ := if 0 ≤ q then ⌊q⌋ else -⌊-q⌋

/-! ## Resolution Scaler (`get_pixel_size_and_scale_parameters`)

`scaled_sigma = max(0.5, min(5.0, 3.0 / pixel_size))`,
`scaled_kernel_radius = max(1, min(15, int(8.0 / pixel_size)))`,
`scaled_buffer_distance = original_buffer_distance` (kept in meters),
`scaled_fill_distance = max(1, min(1000, int(100.0 / pixel_size)))`. -/

def scaled_sigma (pixel_size : ℚ) : ℚ := max (1/2) (min 5 (3 / pixel_size))

def scaled_kernel_radius (pixel_size : ℚ) : ℤ :=
  max 1 (min 15 (pyInt (8 / pixel_size)))

def scaled_buffer_distance (original_buffer_distance : ℚ) : ℚ :=
  original_buffer_distance

def scaled_fill_distance (pixel_size : ℚ) : ℤ :=
  max 1 (min 1000 (pyInt (100 / pixel_size)))

/-- Stated from the spec's words, for comparison with the code: a kernel
radius that rounds `8.0 / pixelSize` to the nearest integer before
clamping, as the specification describes. -/
def spec_round_kernel_radius (pixel_size : ℚ) : ℤ :=
  max 1 (min 15 (round (8 / pixel_size)))

/-! ## Iterative smoothing strength (`run_reconstruction`, step 1) -/

/-- Per-pass smoothing strength: `sigma` when a single pass is requested,
otherwise `sigma * (0.7 + 0.6 * iteration / (gaussian_iterations - 1))`. -/
def adaptive_sigma (sigma_value : ℚ) (gaussian_iterations : ℕ) (iteration : ℕ) : ℚ :=
  if gaussian_iterations = 1 then sigma_value
  else sigma_value * (7/10 + (3/5) * (iteration : ℚ) / ((gaussian_iterations : ℚ) - 1))

/-! ## Selection-mask formulas (masking / buffering stages)

The stage chooses one of four per-pixel formulas from the two filter
flags: `A > 0`, `A > 1`, `A > 0 AND A <= 1`, or the constant `0`. -/

/-- Per-pixel value of the selection-mask formula chosen from the two
filter flags, applied to a label value `a`. -/
def apply_mask_formula (filter_anthropogenic filter_vegetation : Bool) (a : ℚ) : ℚ :=
  if filter_anthropogenic && filter_vegetation then
    (if 0 < a then 1 else 0)
  else if filter_anthropogenic && !filter_vegetation then
    (if 1 < a then 1 else 0)
  else if !filter_anthropogenic && filter_vegetation then
    (if 0 < a ∧ a ≤ 1 then 1 else 0)
  else 0

/-! ## Percentile Statistics Engine (`calculate_raster_percentiles`)

Strategy selection by total pixel count, the systematic sampling loop
with its early-stop budget, and the NumPy-free nearest-rank fallback. -/

inductive PercentileStrategy
  | sampling
  | chunked
  | safe
deriving DecidableEq

/-- The processing plan chosen from the total pixel count: sampling for
large rasters, chunked processing for medium ones, safe sampling for
small ones. -/
inductive SamplingPlan
  | sampling (target_samples sample_factor : ℕ)
  | chunked (chunk_size : ℕ)
  | safe (target_samples sample_factor : ℕ)
deriving DecidableEq

/-- Strategy selection.  `int(x ** 0.5)` of a nonnegative quotient of
naturals is the integer square root of its floor, and a zero target
sample count makes the stride computation a division by zero, which
raises and surfaces as `none`. -/
def select_sampling_plan (total_pixels : ℕ) : Option SamplingPlan :=
  if 5000000 < total_pixels then
    let target_samples := min 100000 (total_pixels / 10)
    if target_samples = 0 then none
    else some (.sampling target_samples (max 1 (Nat.sqrt (total_pixels / target_samples))))
  else if 1000000 < total_pixels then
    some (.chunked 1000)
  else
    let target_samples := min 50000 (total_pixels / 2)
    if target_samples = 0 then none
    else some (.safe target_samples (max 1 (Nat.sqrt (total_pixels / target_samples))))

/-- Stated from the spec's words, for comparison with the code: the
ceiling of the square root of `total_pixels / target_samples`, i.e. the
least `k` with `total_pixels ≤ k^2 * target_samples`. -/
def spec_ceil_sqrt_stride (total_pixels target_samples : ℕ) : ℕ :=
  let k := Nat.sqrt (total_pixels / target_samples)
  if total_pixels ≤ k * k * target_samples then k else k + 1

/-- Python `range(0, stop, step)` for a positive step. -/
def pyRange (stop step : ℕ) : List ℕ :=
  (List.range ((stop + step - 1) / step)).map (· * step)

/-- Inner sampling loop over the row offsets for a fixed column offset
`i`: every visited lattice point counts toward the sample budget, and
the loop breaks as soon as the budget is reached. -/
def sample_loop_rows (i : ℕ) (js : List ℕ) (taken target : ℕ) :
    List (ℕ × ℕ) × ℕ :=
  match js with
  | [] => ([], taken)
  | j :: rest =>
      if target ≤ taken then ([], taken)
      else
        let r := sample_loop_rows i rest (taken + 1) target
        ((i, j) :: r.1, r.2)

/-- Outer sampling loop over the column offsets; after each inner loop
the outer loop breaks once the budget is reached. -/
def sample_loop (is : List ℕ) (js : List ℕ) (taken target : ℕ) :
    List (ℕ × ℕ) × ℕ :=
  match is with
  | [] => ([], taken)
  | i :: rest =>
      let r := sample_loop_rows i js taken target
      if target ≤ r.2 then r
      else
        let r2 := sample_loop rest js r.2 target
        (r.1 ++ r2.1, r2.2)

/-- Nearest-rank fallback percentile (NumPy-free path of
`calculate_raster_percentiles`): drop NoData values, sort ascending,
truncate `(percentile / 100) * (n - 1)` to an integer index, clamp it
into `[0, n - 1]` and return the value stored there. -/
def fallback_percentile (values : List ℚ) (nodata : ℚ) (percentile : ℚ) : Option ℚ :=
  if values.length = 0 then none
  else
    let valid_values := values.filter (fun v => v ≠ nodata)
    if valid_values.length = 0 then none
    else
      let sorted := valid_values.insertionSort (· ≤ ·)
      let index := pyInt ((percentile / 100) * ((valid_values.length : ℚ) - 1))
      let clamped := max 0 (min index ((valid_values.length : ℤ) - 1))
      some (sorted.getD clamped.toNat 0)

/-- Stated from the spec's words, for comparison with the code:
nearest-rank percentile whose fractional index is rounded to the
nearest integer instead of truncated. -/
def spec_nearest_rank (values : List ℚ) (nodata : ℚ) (percentile : ℚ) : Option ℚ :=
  if values.length = 0 then none
  else
    let valid_values := values.filter (fun v => v ≠ nodata)
    if valid_values.length = 0 then none
    else
      let sorted := valid_values.insertionSort (· ≤ ·)
      let index := round ((percentile / 100) * ((valid_values.length : ℚ) - 1))
      let clamped := max 0 (min index ((valid_values.length : ℤ) - 1))
      some (sorted.getD clamped.toNat 0)

/-! ## Classification Decision Engine (`run_reconstruction`, step 5)

The raster-calculator expressions built by the code, as per-pixel
functions over exact rationals. -/

/-- Vegetation condition of the 3-class rule with texture rasters and
residuals: the texture disjunction together with all natural
slope/curvature/residual bounds. -/
def vegetation_condition (sT cT rT vT eT slope curv resid variance entropy : ℚ) : Prop :=
  (vT < variance ∨ eT < entropy) ∧
    (slope ≤ sT ∧ curv ≤ cT ∧ -cT ≤ curv ∧ resid ≤ rT ∧ -rT ≤ resid)

/-- Anthropogenic condition with residuals: some slope, curvature or
residual bound is exceeded. -/
def anthropogenic_condition (sT cT rT slope curv resid : ℚ) : Prop :=
  sT < slope ∨ cT < curv ∨ curv < -cT ∨ rT < resid ∨ resid < -rT

/-- Vegetation condition of the 3-class texture rule without residuals. -/
def vegetation_condition_nores (sT cT vT eT slope curv variance entropy : ℚ) : Prop :=
  (vT < variance ∨ eT < entropy) ∧ (slope ≤ sT ∧ curv ≤ cT ∧ -cT ≤ curv)

/-- Anthropogenic condition without residuals. -/
def anthropogenic_condition_nores (sT cT slope curv : ℚ) : Prop :=
  sT < slope ∨ cT < curv ∨ curv < -cT

instance vegetation_condition_dec (sT cT rT vT eT s c r v e : ℚ) :
    Decidable (vegetation_condition sT cT rT vT eT s c r v e) := by
  unfold vegetation_condition; infer_instance

instance anthropogenic_condition_dec (sT cT rT s c r : ℚ) :
    Decidable (anthropogenic_condition sT cT rT s c r) := by
  unfold anthropogenic_condition; infer_instance

instance vegetation_condition_nores_dec (sT cT vT eT s c v e : ℚ) :
    Decidable (vegetation_condition_nores sT cT vT eT s c v e) := by
  unfold vegetation_condition_nores; infer_instance

instance anthropogenic_condition_nores_dec (sT cT s c : ℚ) :
    Decidable (anthropogenic_condition_nores sT cT s c) := by
  unfold anthropogenic_condition_nores; infer_instance

/-- 3-class rule, texture rasters present, residuals enabled. -/
def classify3_texture_residual (sT cT rT vT eT slope curv resid variance entropy : ℚ) : ℚ :=
  if vegetation_condition sT cT rT vT eT slope curv resid variance entropy then 1
  else if anthropogenic_condition sT cT rT slope curv resid then 2
  else 0

/-- 3-class rule, texture rasters present, residuals disabled. -/
def classify3_texture (sT cT vT eT slope curv variance entropy : ℚ) : ℚ :=
  if vegetation_condition_nores sT cT vT eT slope curv variance entropy then 1
  else if anthropogenic_condition_nores sT cT slope curv then 2
  else 0

/-- 3-class slope-proxy rule (texture enabled, rasters unavailable),
residuals enabled: `slope <= sT/2` with `abs(residual) <= rT/2` is the
vegetation proxy. -/
def classify3_proxy_residual (sT cT rT slope curv resid : ℚ) : ℚ :=
  if slope ≤ sT / 2 ∧ |resid| ≤ rT / 2 then 1
  else if sT < slope ∨ cT < curv ∨ curv < -cT ∨ rT < |resid| then 2
  else 0

/-- 3-class slope-proxy rule without residuals. -/
def classify3_proxy (sT cT slope curv : ℚ) : ℚ :=
  if slope ≤ sT / 2 then 1
  else if anthropogenic_condition_nores sT cT slope curv then 2
  else 0

/-- Binary rule with residuals: the truth value of the anthropogenic
condition. -/
def classify_binary_residual (sT cT rT slope curv resid : ℚ) : ℚ :=
  if anthropogenic_condition sT cT rT slope curv resid then 1 else 0

/-- Binary rule without residuals. -/
def classify_binary (sT cT slope curv : ℚ) : ℚ :=
  if anthropogenic_condition_nores sT cT slope curv then 1 else 0

/-- Per-pixel classification.  The choice among the four rules follows
the source exactly; the NoData handling is modelled from the spec: the
external raster-expression evaluator propagates NoData whenever a
channel bound in the expression is NoData at the position. -/
def classification_pixel (use_texture texture_layers_available use_residuals : Bool)
    (sT cT rT vT eT : ℚ) (slope curv resid variance entropy : Option ℚ) : Option ℚ :=
  if use_texture && texture_layers_available then
    if use_residuals then
      match slope, curv, resid, variance, entropy with
      | some s, some c, some r, some v, some e =>
          some (classify3_texture_residual sT cT rT vT eT s c r v e)
      | _, _, _, _, _ => none
    else
      match slope, curv, variance, entropy with
      | some s, some c, some v, some e => some (classify3_texture sT cT vT eT s c v e)
      | _, _, _, _ => none
  else if use_texture && !texture_layers_available then
    if use_residuals then
      match slope, curv, resid with
      | some s, some c, some r => some (classify3_proxy_residual sT cT rT s c r)
      | _, _, _ => none
    else
      match slope, curv with
      | some s, some c => some (classify3_proxy sT cT s c)
      | _, _ => none
  else
    if use_residuals then
      match slope, curv, resid with
      | some s, some c, some r => some (classify_binary_residual sT cT rT s c r)
      | _, _, _ => none
    else
      match slope, curv with
      | some s, some c => some (classify_binary sT cT s c)
      | _, _ => none

/-- A channel bound in the selected rule is NoData at the position. -/
def bound_channel_missing (use_texture texture_layers_available use_residuals : Bool)
    (slope curv resid variance entropy : Option ℚ) : Prop :=
  slope = none ∨ curv = none ∨ (use_residuals = true ∧ resid = none) ∨
    (use_texture = true ∧ texture_layers_available = true ∧
      (variance = none ∨ entropy = none))

lemma classify3_texture_residual_range (sT cT rT vT eT s c r v e : ℚ) :
    classify3_texture_residual sT cT rT vT eT s c r v e = 0 ∨
    classify3_texture_residual sT cT rT vT eT s c r v e = 1 ∨
    classify3_texture_residual sT cT rT vT eT s c r v e = 2 := by
  unfold classify3_texture_residual
  split
  · simp
  · split <;> simp

lemma classify3_texture_range (sT cT vT eT s c v e : ℚ) :
    classify3_texture sT cT vT eT s c v e = 0 ∨
    classify3_texture sT cT vT eT s c v e = 1 ∨
    classify3_texture sT cT vT eT s c v e = 2 := by
  unfold classify3_texture
  split
  · simp
  · split <;> simp

lemma classify3_proxy_residual_range (sT cT rT s c r : ℚ) :
    classify3_proxy_residual sT cT rT s c r = 0 ∨
    classify3_proxy_residual sT cT rT s c r = 1 ∨
    classify3_proxy_residual sT cT rT s c r = 2 := by
  unfold classify3_proxy_residual
  split
  · simp
  · split <;> simp

lemma classify3_proxy_range (sT cT s c : ℚ) :
    classify3_proxy sT cT s c = 0 ∨ classify3_proxy sT cT s c = 1 ∨
    classify3_proxy sT cT s c = 2 := by
  unfold classify3_proxy
  split
  · simp
  · split <;> simp

lemma classify_binary_residual_range (sT cT rT s c r : ℚ) :
    classify_binary_residual sT cT rT s c r = 0 ∨
    classify_binary_residual sT cT rT s c r = 1 := by
  unfold classify_binary_residual
  split <;> simp

lemma classify_binary_range (sT cT s c : ℚ) :
    classify_binary sT cT s c = 0 ∨ classify_binary sT cT s c = 1 := by
  unfold classify_binary
  split <;> simp

/-! ## Threshold Analyzer (`analyze_geomorphometric_statistics`) and
its caller (`run_reconstruction`, step 5a)

Each call into the percentile engine is represented by its outcome
(`Option ℚ`); a missing value reaching an `abs` or a format string
raises, lands in the enclosing exception handler, and surfaces as
`none`. -/

structure StatsResults where
  slope_threshold : Option ℚ
  curvature_pos_threshold : Option ℚ
  curvature_neg_threshold : Option ℚ
  residual_threshold : Option ℚ
  variance_threshold : Option ℚ
  entropy_threshold : Option ℚ
  use_texture : Bool
  threshold_method : String
deriving DecidableEq

structure AppliedThresholds where
  slope_threshold : ℚ
  curvature_threshold : ℚ
  residual_threshold : Option ℚ
  variance_threshold : Option ℚ
  entropy_threshold : Option ℚ
  threshold_method : String
deriving DecidableEq

/-- The statistical analyzer.  In sequence: the residual symmetric
threshold (`abs` of a missing value raises), the texture state (in
percentile mode a missing texture percentile raises at its format
string; with texture layers absent the UI checkbox decides
`use_texture` and the thresholds stay unset), then the summary output,
which raises on a missing slope or curvature value and, when
`use_texture` holds in percentile mode, on unset texture thresholds. -/
def analyze_geomorphometric_statistics
    (radioPercentile : Bool)
    (slope_pct curvature_pos_pct curvature_neg_pct : Option ℚ)
    (residual_present : Bool) (residual_pos_pct residual_neg_pct : Option ℚ)
    (texture_present : Bool) (variance_pct entropy_pct : Option ℚ)
    (checkTextureAnalysis : Bool)
    (uiVarianceThreshold uiEntropyThreshold : ℚ) : Option StatsResults :=
  let varianceInit : Option ℚ := if radioPercentile then none else some uiVarianceThreshold
  let entropyInit : Option ℚ := if radioPercentile then none else some uiEntropyThreshold
  let residual_step : Option (Option ℚ) :=
    if residual_present then
      match residual_pos_pct, residual_neg_pct with
      | some rp, some rn => some (some (max |rp| |rn|))
      | _, _ => none
    else some none
  let texture_step : Option (Bool × Option ℚ × Option ℚ) :=
    if texture_present then
      if radioPercentile then
        match variance_pct, entropy_pct with
        | some v, some e => some (true, some v, some e)
        | _, _ => none
      else some (true, varianceInit, entropyInit)
    else some (checkTextureAnalysis, varianceInit, entropyInit)
  match residual_step, texture_step, slope_pct, curvature_pos_pct, curvature_neg_pct with
  | some residual_threshold, some texState, some s, some cp, some cn =>
      let results : StatsResults :=
        { slope_threshold := some s, curvature_pos_threshold := some cp,
          curvature_neg_threshold := some cn, residual_threshold := residual_threshold,
          variance_threshold := texState.2.1, entropy_threshold := texState.2.2,
          use_texture := texState.1,
          threshold_method := if radioPercentile then "percentile" else "fixed" }
      if texState.1 && radioPercentile then
        match texState.2.1, texState.2.2 with
        | some _, some _ => some results
        | _, _ => none
      else some results
  | _, _, _, _, _ => none

/-- The fixed-threshold fallback record built by the caller when the
statistical analysis returns no result. -/
def fixed_fallback_thresholds (uiSlope uiCurvature uiResidual uiVariance uiEntropy : ℚ) :
    AppliedThresholds :=
  { slope_threshold := uiSlope, curvature_threshold := uiCurvature,
    residual_threshold := some uiResidual, variance_threshold := some uiVariance,
    entropy_threshold := some uiEntropy, threshold_method := "fixed_fallback" }

/-- Threshold determination in percentile mode: a failed analysis falls
back to the caller-supplied fixed constants; a successful one is turned
into the applied set with the symmetric curvature threshold
`max(abs(pos), abs(neg))`.  A missing value reaching the `abs` or a
summary format string would abort the run, which surfaces as `none`. -/
def determine_thresholds_percentile (texture_present : Bool) (stats : Option StatsResults)
    (uiSlope uiCurvature uiResidual uiVariance uiEntropy : ℚ) : Option AppliedThresholds :=
  match stats with
  | none => some (fixed_fallback_thresholds uiSlope uiCurvature uiResidual uiVariance uiEntropy)
  | some r =>
      match r.curvature_pos_threshold, r.curvature_neg_threshold, r.slope_threshold with
      | some cp, some cn, some s =>
          let applied : AppliedThresholds :=
            { slope_threshold := s, curvature_threshold := max |cp| |cn|,
              residual_threshold := r.residual_threshold,
              variance_threshold := r.variance_threshold,
              entropy_threshold := r.entropy_threshold,
              threshold_method := "percentile" }
          if texture_present then
            match r.variance_threshold, r.entropy_threshold with
            | some _, some _ => some applied
            | _, _ => none
          else some applied
      | _, _, _ => none

/-- Some channel required in percentile mode has a failed percentile
computation. -/
def percentile_failure (slope_pct curvature_pos_pct curvature_neg_pct : Option ℚ)
    (residual_present : Bool) (residual_pos_pct residual_neg_pct : Option ℚ)
    (texture_present : Bool) (variance_pct entropy_pct : Option ℚ) : Prop :=
  slope_pct = none ∨ curvature_pos_pct = none ∨ curvature_neg_pct = none ∨
    (residual_present = true ∧ (residual_pos_pct = none ∨ residual_neg_pct = none)) ∨
    (texture_present = true ∧ (variance_pct = none ∨ entropy_pct = none))

/-! ## Buffering stage (`run_reconstruction`, step 6) -/

/-- The label-derived binary mask entering the buffering stage: in
3-class mode the selection formula applied to the label grid (NoData
propagating per the evaluator contract), in binary mode the label grid
itself, copied unchanged. -/
def label_derived_mask {Pix : Type} (use_texture fA fV : Bool)
    (label : Pix → Option ℚ) : Pix → Option ℚ :=
  if use_texture then fun p => (label p).map (apply_mask_formula fA fV) else label

/-- The buffering stage: with a nonpositive configured buffer distance
buffering is skipped entirely and the derived mask passes through;
otherwise the physical distance is converted to clamped pixel units and
the provider chain — morphological buffer, then distance-transform
threshold, then the unbuffered mask — is tried in order. -/
def buffering_stage {Pix : Type} (buffer_distance pixel_size : ℚ)
    (use_texture fA fV : Bool) (label : Pix → Option ℚ)
    (grass_buffer : ℤ → (Pix → Option ℚ) → Option (Pix → Option ℚ))
    (gdal_proximity_buffer : ℚ → (Pix → Option ℚ) → Option (Pix → Option ℚ)) :
    Pix → Option ℚ :=
  let mask := label_derived_mask use_texture fA fV label
  if buffer_distance ≤ 0 then mask
  else
    let buffer_distance_pixels := max 1 (min 50 (pyInt (buffer_distance / pixel_size)))
    match grass_buffer buffer_distance_pixels mask with
    | some buffered => buffered
    | none =>
        match gdal_proximity_buffer buffer_distance mask with
        | some buffered => buffered
        | none => mask

/-! ## Pipeline Orchestrator failure semantics (`run_reconstruction`)

The run as a function of which input checks and external operations
succeed.  Residual computation, texture analysis and the threshold
analysis never appear in the control flow below because their failures
only degrade the run; their outcomes are still recorded in the
environment so the theorems can quantify over them. -/

structure RunEnv where
  flat_input : Bool
  smoothing_load_ok : Bool
  residual_gdal_ok : Bool
  residual_qgis_ok : Bool
  residual_fallback_ok : Bool
  slope_ok : Bool
  curvature_qgis_ok : Bool
  curvature_grass_ok : Bool
  curvature_saga_ok : Bool
  texture_ok : Bool
  analysis_ok : Bool
  classification_ok : Bool
  buffer_distance_zero : Bool
  buffer_zero_ok : Bool
  buffer_grass_ok : Bool
  buffer_proximity_ok : Bool
  buffer_copy_ok : Bool
  masking_ok : Bool
  interp_selected_ok : Bool
  interp_simple_ok : Bool
  interp_copy_ok : Bool
deriving DecidableEq

inductive RunOutcome
  | aborted_invalid_input
  | aborted_no_curvature
  | aborted (stage : String)
  | completed
deriving DecidableEq

/-- Control flow of `run_reconstruction`: the flat-input validation
first, then the stages in source order, each failing over to its
fallback chain; a critical message box with `return` and an uncaught
exception both abort the run. -/
def run_reconstruction (env : RunEnv) : RunOutcome :=
  if env.flat_input then .aborted_invalid_input
  else if !env.smoothing_load_ok then .aborted "smoothing"
  else if !env.slope_ok then .aborted "slope"
  else if !(env.curvature_qgis_ok || env.curvature_grass_ok || env.curvature_saga_ok) then
    .aborted_no_curvature
  else if !env.classification_ok then .aborted "classification"
  else
    let buffer_ok :=
      if env.buffer_distance_zero then env.buffer_zero_ok
      else env.buffer_grass_ok || env.buffer_proximity_ok || env.buffer_copy_ok
    if !buffer_ok then .aborted "buffering"
    else if !env.masking_ok then .aborted "masking"
    else if !(env.interp_selected_ok || env.interp_simple_ok || env.interp_copy_ok) then
      .aborted "interpolation"
    else .completed

/-- An environment in which the input is valid and every operation
succeeds except the slope derivation. -/
def env_slope_failure : RunEnv :=
  { flat_input := false, smoothing_load_ok := true, residual_gdal_ok := true,
    residual_qgis_ok := true, residual_fallback_ok := true, slope_ok := false,
    curvature_qgis_ok := true, curvature_grass_ok := true, curvature_saga_ok := true,
    texture_ok := true, analysis_ok := true, classification_ok := true,
    buffer_distance_zero := false, buffer_zero_ok := true, buffer_grass_ok := true,
    buffer_proximity_ok := true, buffer_copy_ok := true, masking_ok := true,
    interp_selected_ok := true, interp_simple_ok := true, interp_copy_ok := true }

/-- An environment with a valid input and working fatal-capable stages,
in which the residual chain, texture analysis and percentile analysis
all fail (they only degrade the run). -/
def env_degraded : RunEnv :=
  { flat_input := false, smoothing_load_ok := true, residual_gdal_ok := false,
    residual_qgis_ok := false, residual_fallback_ok := false, slope_ok := true,
    curvature_qgis_ok := false, curvature_grass_ok := true, curvature_saga_ok := false,
    texture_ok := false, analysis_ok := false, classification_ok := true,
    buffer_distance_zero := true, buffer_zero_ok := true, buffer_grass_ok := false,
    buffer_proximity_ok := false, buffer_copy_ok := false, masking_ok := true,
    interp_selected_ok := false, interp_simple_ok := false, interp_copy_ok := true }

lemma sample_loop_rows_eq (i : ℕ) (js : List ℕ) (taken target : ℕ) :
    sample_loop_rows i js taken target =
      ((js.take (target - taken)).map (fun j => (i, j)),
        taken + min js.length (target - taken)) := by
  induction js generalizing taken with
  | nil => simp [sample_loop_rows]
  | cons j rest ih =>
      by_cases h : target ≤ taken
      · simp [sample_loop_rows, h, Nat.sub_eq_zero_of_le h]
      · have h1 : target - taken = (target - (taken + 1)) + 1 := by omega
        rw [sample_loop_rows, if_neg h, ih (taken + 1), h1]
        simp only [List.take_succ_cons, List.map_cons, List.length_cons]
        refine Prod.ext rfl ?_
        simp only
        omega

lemma sample_loop_taken (is js : List ℕ) (taken target : ℕ) :
    taken ≤ (sample_loop is js taken target).2 := by
  induction is generalizing taken with
  | nil => simp [sample_loop]
  | cons i rest ih =>
      rw [sample_loop]
      simp only [sample_loop_rows_eq]
      by_cases h : target ≤ taken + min js.length (target - taken)
      · simpa [h] using Nat.le_add_right _ _
      · simp only [h, if_false]
        exact le_trans (Nat.le_add_right _ _) (ih _)

lemma sample_loop_eq (is js : List ℕ) (taken target : ℕ) (h : taken ≤ target) :
    (sample_loop is js taken target).1 =
      (is.bind (fun i => js.map (fun j => (i, j)))).take (target - taken) := by
  induction is generalizing taken with
  | nil => simp [sample_loop]
  | cons i rest ih =>
      rw [sample_loop]
      simp only [sample_loop_rows_eq, List.cons_bind]
      by_cases hb : target ≤ taken + min js.length (target - taken)
      · have hlen : target - taken ≤ js.length := by omega
        rw [if_pos hb]
        simp only
        rw [List.take_append_of_le_length (by simpa using hlen), List.map_take]
      · have hlen : js.length < target - taken := by omega
        rw [if_neg hb]
        have hmin : min js.length (target - taken) = js.length := by omega
        simp only [hmin]
        rw [ih (taken + js.length) (by omega)]
        rw [List.take_append_eq_append_take]
        congr 1
        · simp [List.map_take]
        · congr 1
          simp only [List.length_map]
          omega

/-! ## Theorems -/

/-- C2 (amended): rasters above 5,000,000 pixels use sampling with
target sample count `min(100000, T/10)` and systematic stride
`max(1, floor(sqrt(T/targetSamples)))`; rasters of at most 1,000,000
pixels use safe lattice sampling with target `min(50000, T/2)` and the
same stride rule; and the lattice visit stops early after the target
number of lattice points. -/
theorem C2_sampling_strategy (T S w h fac target : ℕ)
    (hT : 5000000 < T) (hS2 : 2 ≤ S) (hS : S ≤ 1000000) :
    select_sampling_plan T =
      some (.sampling (min 100000 (T / 10))
        (max 1 (Nat.sqrt (T / min 100000 (T / 10))))) ∧
    select_sampling_plan S =
      some (.safe (min 50000 (S / 2))
        (max 1 (Nat.sqrt (S / min 50000 (S / 2))))) ∧
    (sample_loop (pyRange w fac) (pyRange h fac) 0 target).1 =
      ((pyRange w fac).bind (fun i => (pyRange h fac).map (fun j => (i, j)))).take target ∧
    (sample_loop (pyRange w fac) (pyRange h fac) 0 target).1.length ≤ target := by
  refine ⟨?_, ?_, ?_, ?_⟩
  · have h10 : ¬ min 100000 (T / 10) = 0 := by omega
    simp only [select_sampling_plan, if_pos hT, if_neg h10]
  · have hgt : ¬ 5000000 < S := by omega
    have hgt2 : ¬ 1000000 < S := by omega
    have h2 : ¬ min 50000 (S / 2) = 0 := by omega
    simp only [select_sampling_plan, if_neg hgt, if_neg hgt2, if_neg h2]
  · simpa using sample_loop_eq (pyRange w fac) (pyRange h fac) 0 target (Nat.zero_le _)
  · rw [sample_loop_eq _ _ 0 target (Nat.zero_le _)]
    simpa using List.length_take_le _ _

/-- Witness for C2 at 6,000,000 and 100 pixels, a 3x3 grid, stride 1
and a budget of 4 points. -/
theorem C2_sampling_strategy_witness :
    ((5000000 : ℕ) < 6000000 ∧ (2 : ℕ) ≤ 100 ∧ (100 : ℕ) ≤ 1000000) ∧
    (select_sampling_plan 6000000 =
      some (.sampling (min 100000 (6000000 / 10))
        (max 1 (Nat.sqrt (6000000 / min 100000 (6000000 / 10))))) ∧
     select_sampling_plan 100 =
      some (.safe (min 50000 (100 / 2))
        (max 1 (Nat.sqrt (100 / min 50000 (100 / 2))))) ∧
     (sample_loop (pyRange 3 1) (pyRange 3 1) 0 4).1 =
      ((pyRange 3 1).bind (fun i => (pyRange 3 1).map (fun j => (i, j)))).take 4 ∧
     (sample_loop (pyRange 3 1) (pyRange 3 1) 0 4).1.length ≤ 4) :=
  ⟨⟨by norm_num, by norm_num, by norm_num⟩,
   C2_sampling_strategy 6000000 100 3 3 1 4 (by norm_num) (by norm_num) (by norm_num)⟩

/-- C2 counterexample: at 6,000,000 pixels the target sample count is
100,000 and the code stride is `floor(sqrt 60) = 7`, while the claimed
`ceil(sqrt 60)` is 8. -/
theorem C2_counterexample :
    select_sampling_plan 6000000 = some (.sampling 100000 7) ∧
    spec_ceil_sqrt_stride 6000000 100000 = 8 := by
  have h60 : (6000000 : ℕ) / 100000 = 60 := by norm_num
  have hs : Nat.sqrt 60 = 7 := by norm_num
  constructor
  · have hmin : min 100000 (6000000 / 10) = 100000 := by norm_num
    have hne : ¬ min 100000 ((6000000 : ℕ) / 10) = 0 := by norm_num
    simp only [select_sampling_plan, if_pos (by norm_num : (5000000:ℕ) < 6000000),
      if_neg hne, hmin, h60, hs]
    norm_num
  · simp only [spec_ceil_sqrt_stride, h60, hs]
    norm_num

/-- C3 (amended): for a list with a nonempty set of valid (non-NoData)
values and a percentile `p` in `[0, 100]`, the fallback computation
sorts the valid values ascending, truncates (equivalently floors)
`(p/100) * (n-1)` to an index — which already lies in `[0, n-1]`, so
the clamp is a no-op — and returns the sorted value at that index. -/
theorem C3_fallback_percentile (values : List ℚ) (nodata p : ℚ)
    (hvalid : values.filter (fun v => v ≠ nodata) ≠ [])
    (h0 : 0 ≤ p) (h100 : p ≤ 100) :
    (⌊(p / 100) * (((values.filter (fun v => v ≠ nodata)).length : ℚ) - 1)⌋).toNat
        < (values.filter (fun v => v ≠ nodata)).length ∧
    fallback_percentile values nodata p =
      some (((values.filter (fun v => v ≠ nodata)).insertionSort (· ≤ ·)).getD
        (⌊(p / 100) * (((values.filter (fun v => v ≠ nodata)).length : ℚ) - 1)⌋).toNat 0) := by
  set valid := values.filter (fun v => v ≠ nodata) with hvdef
  have hn : 1 ≤ valid.length := List.length_pos.mpr hvalid
  have hvals : values ≠ [] := by
    intro h
    rw [h] at hvdef
    simp [hvdef] at hvalid
  have hx0 : 0 ≤ (p / 100) * ((valid.length : ℚ) - 1) := by
    apply mul_nonneg (by positivity)
    have : (1 : ℚ) ≤ (valid.length : ℚ) := by exact_mod_cast hn
    linarith
  have hxle : (p / 100) * ((valid.length : ℚ) - 1) ≤ (valid.length : ℚ) - 1 := by
    have hp1 : p / 100 ≤ 1 := by linarith [div_le_one_of_le h100 (by norm_num : (0:ℚ) ≤ 100)]
    have : (1 : ℚ) ≤ (valid.length : ℚ) := by exact_mod_cast hn
    nlinarith
  have hfl0 : 0 ≤ ⌊(p / 100) * ((valid.length : ℚ) - 1)⌋ := Int.floor_nonneg.mpr hx0
  have hfle : ⌊(p / 100) * ((valid.length : ℚ) - 1)⌋ ≤ (valid.length : ℤ) - 1 := by
    have h1 : ((valid.length : ℚ) - 1) = (((valid.length : ℤ) - 1 : ℤ) : ℚ) := by push_cast; ring
    calc ⌊(p / 100) * ((valid.length : ℚ) - 1)⌋ ≤ ⌊(valid.length : ℚ) - 1⌋ :=
          Int.floor_le_floor hxle
      _ = (valid.length : ℤ) - 1 := by rw [h1, Int.floor_intCast]
  constructor
  · omega
  · have hlen : ¬ values.length = 0 := by simpa [List.length_eq_zero] using hvals
    have hvlen : ¬ valid.length = 0 := by omega
    rw [fallback_percentile, if_neg hlen, if_neg (by simpa [hvdef] using hvlen)]
    have hpy : pyInt ((p / 100) * ((valid.length : ℚ) - 1)) =
        ⌊(p / 100) * ((valid.length : ℚ) - 1)⌋ := by
      rw [pyInt, if_pos hx0]
    have hclamp : max 0 (min (⌊(p / 100) * ((valid.length : ℚ) - 1)⌋)
        ((valid.length : ℤ) - 1)) = ⌊(p / 100) * ((valid.length : ℚ) - 1)⌋ := by
      omega
    simp only [← hvdef, hpy, hclamp]

/-- Witness for C3 on the list `[3, 1, 2]` with NoData `-9999` and the
50th percentile. -/
theorem C3_fallback_percentile_witness :
    ([3, 1, 2].filter (fun v => v ≠ (-9999 : ℚ)) ≠ [] ∧ (0 : ℚ) ≤ 50 ∧ (50 : ℚ) ≤ 100) ∧
    ((⌊((50 : ℚ) / 100) * ((([3, 1, 2].filter (fun v => v ≠ (-9999 : ℚ))).length : ℚ) - 1)⌋).toNat
        < ([3, 1, 2].filter (fun v => v ≠ (-9999 : ℚ))).length ∧
     fallback_percentile [3, 1, 2] (-9999) 50 =
      some ((([3, 1, 2].filter (fun v => v ≠ (-9999 : ℚ))).insertionSort (· ≤ ·)).getD
        (⌊((50 : ℚ) / 100) * ((([3, 1, 2].filter (fun v => v ≠ (-9999 : ℚ))).length : ℚ) - 1)⌋).toNat 0)) :=
  ⟨⟨by norm_num [List.filter]; simp, by norm_num, by norm_num⟩,
   C3_fallback_percentile [3, 1, 2] (-9999) 50 (by norm_num [List.filter]; simp)
     (by norm_num) (by norm_num)⟩

/-- C3 counterexample: on the two valid samples `[10, 20]` at the 90th
percentile the code truncates the fractional rank `0.9` to index 0 and
returns 10, while the claimed rounding rule gives index 1 and 20. -/
theorem C3_counterexample :
    fallback_percentile [10, 20] (-9999) 90 = some 10 ∧
    spec_nearest_rank [10, 20] (-9999) 90 = some 20 := by
  have hfil : List.filter (fun v => v ≠ (-9999 : ℚ)) [10, 20] = [10, 20] := by
    norm_num [List.filter]
  have hsort : List.insertionSort (fun a b => a ≤ b) [(10 : ℚ), 20] = [10, 20] := by
    norm_num [List.insertionSort, List.orderedInsert]
  have harg : ((90 : ℚ) / 100) * ((([10, 20] : List ℚ).length : ℚ) - 1) = 9/10 := by
    norm_num
  have hfloor : ⌊(9/10 : ℚ)⌋ = 0 := by norm_num
  have hround : round ((9/10 : ℚ)) = 1 := by
    rw [round_eq]
    norm_num
  constructor
  · rw [fallback_percentile]
    simp only [hfil, harg, pyInt, hfloor]
    norm_num [hsort]
  · rw [spec_nearest_rank]
    simp only [hfil, harg, hround]
    norm_num [hsort]

/-- C5: the Resolution Scaler clamps `scaledSigma` into `[0.5, 5]`,
`scaledKernelRadius` into `[1, 15]` and `scaledFillDistance` into
`[1, 1000]` for every pixel size in `[0.1, 50]`; the kernel radius and
fill distance are obtained by truncating (flooring, for positive pixel
sizes) the target-distance ratio rather than rounding it; and a caller
buffer distance of exactly 0 is preserved as 0. -/
theorem C5_resolution_scaler (ps : ℚ) (h1 : 1/10 ≤ ps) (h2 : ps ≤ 50) :
    (1/2 ≤ scaled_sigma ps ∧ scaled_sigma ps ≤ 5) ∧
    (1 ≤ scaled_kernel_radius ps ∧ scaled_kernel_radius ps ≤ 15) ∧
    (1 ≤ scaled_fill_distance ps ∧ scaled_fill_distance ps ≤ 1000) ∧
    scaled_kernel_radius ps = max 1 (min 15 ⌊(8 / ps)⌋) ∧
    scaled_fill_distance ps = max 1 (min 1000 ⌊(100 / ps)⌋) ∧
    scaled_buffer_distance 0 = 0 := by
  have hps : (0 : ℚ) < ps := lt_of_lt_of_le (by norm_num) h1
  have h8 : (0 : ℚ) ≤ 8 / ps := le_of_lt (div_pos (by norm_num) hps)
  have h100 : (0 : ℚ) ≤ 100 / ps := le_of_lt (div_pos (by norm_num) hps)
  refine ⟨⟨le_max_left _ _, ?_⟩, ⟨le_max_left _ _, ?_⟩, ⟨le_max_left _ _, ?_⟩, ?_, ?_, rfl⟩
  · exact max_le (by norm_num) (min_le_left _ _)
  · exact max_le (by norm_num) (min_le_left _ _)
  · exact max_le (by norm_num) (min_le_left _ _)
  · simp [scaled_kernel_radius, pyInt, h8]
  · simp [scaled_fill_distance, pyInt, h100]

/-- Witness for C5 at pixel size 2. -/
theorem C5_resolution_scaler_witness :
    ((1:ℚ)/10 ≤ 2 ∧ (2:ℚ) ≤ 50) ∧
    ((1/2 ≤ scaled_sigma 2 ∧ scaled_sigma 2 ≤ 5) ∧
     (1 ≤ scaled_kernel_radius 2 ∧ scaled_kernel_radius 2 ≤ 15) ∧
     (1 ≤ scaled_fill_distance 2 ∧ scaled_fill_distance 2 ≤ 1000) ∧
     scaled_kernel_radius 2 = max 1 (min 15 ⌊((8:ℚ) / 2)⌋) ∧
     scaled_fill_distance 2 = max 1 (min 1000 ⌊((100:ℚ) / 2)⌋) ∧
     scaled_buffer_distance 0 = 0) :=
  ⟨⟨by norm_num, by norm_num⟩, C5_resolution_scaler 2 (by norm_num) (by norm_num)⟩

/-- C5 counterexample: at pixel size 0.9 the code truncates
`8 / 0.9 = 8.888…` to a kernel radius of 8, while the claimed rounding
rule would give 9. -/
theorem C5_counterexample :
    scaled_kernel_radius (9/10) = 8 ∧ spec_round_kernel_radius (9/10) = 9 := by
  have h89 : ((8:ℚ) / (9/10)) = 80/9 := by norm_num
  have hf : ⌊(80/9 : ℚ)⌋ = 8 := by
    rw [Int.floor_eq_iff]
    constructor <;> norm_num
  have hr : round ((80/9 : ℚ)) = 9 := by
    rw [round_eq]
    rw [show (80/9 : ℚ) + 1/2 = 169/18 by norm_num]
    rw [Int.floor_eq_iff]
    constructor <;> norm_num
  constructor
  · simp only [scaled_kernel_radius, pyInt, h89, hf]
    norm_num
  · simp only [spec_round_kernel_radius, h89, hr]
    norm_num

/-- C4: the per-pass smoothing strength equals `sigma` for a single
pass, is monotonically increasing in the pass index for a nonnegative
base sigma, and for `N = 3`, `sigma = 2.0` yields `[1.4, 2.0, 2.6]`. -/
theorem C4_adaptive_sigma (σ : ℚ) (N i j : ℕ) (hσ : 0 ≤ σ) (hN : 1 ≤ N)
    (hij : i ≤ j) (hj : j < N) :
    adaptive_sigma σ N i ≤ adaptive_sigma σ N j ∧
    (N = 1 → adaptive_sigma σ N i = σ) ∧
    adaptive_sigma 2 3 0 = 7/5 ∧ adaptive_sigma 2 3 1 = 2 ∧
    adaptive_sigma 2 3 2 = 13/5 := by
  refine ⟨?_, ?_, by norm_num [adaptive_sigma], by norm_num [adaptive_sigma],
    by norm_num [adaptive_sigma]⟩
  · unfold adaptive_sigma
    by_cases h1 : N = 1
    · have hi0 : i = 0 := by omega
      have hj0 : j = 0 := by omega
      simp [h1, hi0, hj0]
    · simp only [h1, if_false]
      have hN2 : 2 ≤ N := by omega
      have hden : (0 : ℚ) < (N : ℚ) - 1 := by
        have : (2 : ℚ) ≤ (N : ℚ) := by exact_mod_cast hN2
        linarith
      have hij' : (i : ℚ) ≤ (j : ℚ) := Nat.cast_le.mpr hij
      gcongr
  · intro h1
    simp [adaptive_sigma, h1]

/-- Witness for C4 at `sigma = 2`, `N = 3`, passes 0 and 2. -/
theorem C4_adaptive_sigma_witness :
    (0 : ℚ) ≤ 2 ∧ (1 : ℕ) ≤ 3 ∧ (0 : ℕ) ≤ 2 ∧ (2 : ℕ) < 3 ∧
    (adaptive_sigma 2 3 0 ≤ adaptive_sigma 2 3 2 ∧
     ((3 : ℕ) = 1 → adaptive_sigma 2 3 0 = 2) ∧
     adaptive_sigma 2 3 0 = 7/5 ∧ adaptive_sigma 2 3 1 = 2 ∧
     adaptive_sigma 2 3 2 = 13/5) :=
  ⟨by norm_num, by norm_num, by norm_num, by norm_num,
   C4_adaptive_sigma 2 3 0 2 (by norm_num) (by norm_num) (by norm_num) (by norm_num)⟩

/-- C6: the masking-stage selection mask follows the four filter-flag
combinations (`label > 0`, `label > 1`, `0 < label ≤ 1`, empty), and
with only the anthropogenic flag set it equals `label == 2` on a 3-class
label grid. -/
theorem C6_selection_mask (fA fV : Bool) (a : ℚ) :
    (fA = true → fV = true → apply_mask_formula fA fV a = if 0 < a then 1 else 0) ∧
    (fA = true → fV = false → apply_mask_formula fA fV a = if 1 < a then 1 else 0) ∧
    (fA = false → fV = true → apply_mask_formula fA fV a = if 0 < a ∧ a ≤ 1 then 1 else 0) ∧
    (fA = false → fV = false → apply_mask_formula fA fV a = 0) ∧
    (a = 0 ∨ a = 1 ∨ a = 2 →
      apply_mask_formula true false a = if a = 2 then 1 else 0) := by
  refine ⟨?_, ?_, ?_, ?_, ?_⟩
  · rintro rfl rfl; simp [apply_mask_formula]
  · rintro rfl rfl; simp [apply_mask_formula]
  · rintro rfl rfl; simp [apply_mask_formula]
  · rintro rfl rfl; simp [apply_mask_formula]
  · rintro (rfl | rfl | rfl) <;> norm_num [apply_mask_formula]

/-- Witness for C6 with the anthropogenic-only flags on label 2. -/
theorem C6_selection_mask_witness :
    (true = true → false = true → apply_mask_formula true false 2 = if (0:ℚ) < 2 then 1 else 0) ∧
    (true = true → false = false → apply_mask_formula true false 2 = if (1:ℚ) < 2 then 1 else 0) ∧
    (true = false → false = true → apply_mask_formula true false 2 = if (0:ℚ) < 2 ∧ (2:ℚ) ≤ 1 then 1 else 0) ∧
    (true = false → false = false → apply_mask_formula true false 2 = 0) ∧
    ((2:ℚ) = 0 ∨ (2:ℚ) = 1 ∨ (2:ℚ) = 2 →
      apply_mask_formula true false 2 = if (2:ℚ) = 2 then 1 else 0) :=
  C6_selection_mask true false 2

/-- C8: for every rule selection the label produced at a valid pixel
lies in `{0, 1, 2}`, in binary mode (texture disabled) it lies in
`{0, 1}`, and any position where a channel bound in the selected rule
is NoData yields NoData rather than a spurious class. -/
theorem C8_label_invariant (ut ta ur : Bool) (sT cT rT vT eT : ℚ)
    (slope curv resid variance entropy : Option ℚ) :
    (∀ x, classification_pixel ut ta ur sT cT rT vT eT slope curv resid variance entropy = some x →
      x = 0 ∨ x = 1 ∨ x = 2) ∧
    (ut = false →
      ∀ x, classification_pixel ut ta ur sT cT rT vT eT slope curv resid variance entropy = some x →
        x = 0 ∨ x = 1) ∧
    (bound_channel_missing ut ta ur slope curv resid variance entropy →
      classification_pixel ut ta ur sT cT rT vT eT slope curv resid variance entropy = none) := by
  refine ⟨?_, ?_, ?_⟩
  · intro x hx
    cases ut <;> cases ta <;> cases ur <;>
      cases slope <;> cases curv <;> cases resid <;> cases variance <;> cases entropy <;>
      simp only [classification_pixel, Bool.and_self, Bool.and_false, Bool.and_true,
        Bool.false_and, Bool.true_and, Bool.not_true, Bool.not_false, Bool.true_and,
        if_true, if_false, Bool.false_eq_true, Option.some.injEq, reduceCtorEq] at hx <;>
      first
        | exact absurd hx (by simp)
        | (subst hx
           first
             | exact classify3_texture_residual_range _ _ _ _ _ _ _ _ _ _
             | exact classify3_texture_range _ _ _ _ _ _ _ _
             | exact classify3_proxy_residual_range _ _ _ _ _ _
             | exact classify3_proxy_range _ _ _ _
             | exact (classify_binary_residual_range _ _ _ _ _ _).imp id Or.inl
             | exact (classify_binary_range _ _ _ _).imp id Or.inl)
  · rintro rfl x hx
    cases ur <;>
      cases slope <;> cases curv <;> cases resid <;>
      simp only [classification_pixel, Bool.false_and, if_true, if_false,
        Bool.false_eq_true, eq_self_iff_true, Option.some.injEq, reduceCtorEq] at hx <;>
      first
        | exact absurd hx (by simp)
        | (subst hx
           first
             | exact classify_binary_residual_range _ _ _ _ _ _
             | exact classify_binary_range _ _ _ _)
  · intro h
    cases ut <;> cases ta <;> cases ur <;>
      cases slope <;> cases curv <;> cases resid <;> cases variance <;> cases entropy <;>
      simp_all [classification_pixel, bound_channel_missing]

/-- Witness for C8 in 3-class texture-residual mode at a pixel with all
channels at 0 against all-zero thresholds, and at a NoData slope. -/
theorem C8_label_invariant_witness :
    ((∀ x, classification_pixel true true true 0 0 0 0 0 (some 0) (some 0) (some 0) (some 0) (some 0) = some x →
      x = 0 ∨ x = 1 ∨ x = 2) ∧
     (true = false →
      ∀ x, classification_pixel true true true 0 0 0 0 0 (some 0) (some 0) (some 0) (some 0) (some 0) = some x →
        x = 0 ∨ x = 1) ∧
     (bound_channel_missing true true true (some 0) (some 0) (some 0) (some 0) (some 0) →
      classification_pixel true true true 0 0 0 0 0 (some 0) (some 0) (some 0) (some 0) (some 0) = none)) ∧
    (bound_channel_missing true true true none (some 0) (some 0) (some 0) (some 0) →
      classification_pixel true true true 0 0 0 0 0 none (some 0) (some 0) (some 0) (some 0) = none) :=
  ⟨C8_label_invariant true true true 0 0 0 0 0 (some 0) (some 0) (some 0) (some 0) (some 0),
   (C8_label_invariant true true true 0 0 0 0 0 none (some 0) (some 0) (some 0) (some 0)).2.2⟩

/-- C10: in the 3-class rule with texture channels present, the
vegetation condition entails all natural bounds, whose violation is
exactly the anthropogenic condition, so the two are mutually exclusive
at every pixel and the nested if-order of the decision expression does
not affect the resulting label (with or without residuals). -/
theorem C10_mutual_exclusion (sT cT rT vT eT s c r v e : ℚ) :
    ¬(vegetation_condition sT cT rT vT eT s c r v e ∧
        anthropogenic_condition sT cT rT s c r) ∧
    ¬(vegetation_condition_nores sT cT vT eT s c v e ∧
        anthropogenic_condition_nores sT cT s c) ∧
    classify3_texture_residual sT cT rT vT eT s c r v e =
      (if anthropogenic_condition sT cT rT s c r then 2
       else if vegetation_condition sT cT rT vT eT s c r v e then 1 else 0) ∧
    classify3_texture sT cT vT eT s c v e =
      (if anthropogenic_condition_nores sT cT s c then 2
       else if vegetation_condition_nores sT cT vT eT s c v e then 1 else 0) := by
  have hex1 : ¬(vegetation_condition sT cT rT vT eT s c r v e ∧
      anthropogenic_condition sT cT rT s c r) := by
    rintro ⟨⟨-, h1, h2, h3, h4, h5⟩, h | h | h | h | h⟩ <;> linarith
  have hex2 : ¬(vegetation_condition_nores sT cT vT eT s c v e ∧
      anthropogenic_condition_nores sT cT s c) := by
    rintro ⟨⟨-, h1, h2, h3⟩, h | h | h⟩ <;> linarith
  refine ⟨hex1, hex2, ?_, ?_⟩
  · unfold classify3_texture_residual
    by_cases hv : vegetation_condition sT cT rT vT eT s c r v e
    · have ha : ¬ anthropogenic_condition sT cT rT s c r := fun ha => hex1 ⟨hv, ha⟩
      simp [hv, ha]
    · simp [hv]
  · unfold classify3_texture
    by_cases hv : vegetation_condition_nores sT cT vT eT s c v e
    · have ha : ¬ anthropogenic_condition_nores sT cT s c := fun ha => hex2 ⟨hv, ha⟩
      simp [hv, ha]
    · simp [hv]

/-- Witness for C10 with all thresholds and channel values 0. -/
theorem C10_mutual_exclusion_witness :
    ¬(vegetation_condition 0 0 0 0 0 0 0 0 0 0 ∧ anthropogenic_condition 0 0 0 0 0 0) ∧
    ¬(vegetation_condition_nores 0 0 0 0 0 0 0 0 ∧ anthropogenic_condition_nores 0 0 0 0) ∧
    classify3_texture_residual 0 0 0 0 0 0 0 0 0 0 =
      (if anthropogenic_condition 0 0 0 0 0 0 then 2
       else if vegetation_condition 0 0 0 0 0 0 0 0 0 0 then 1 else 0) ∧
    classify3_texture 0 0 0 0 0 0 0 0 =
      (if anthropogenic_condition_nores 0 0 0 0 then 2
       else if vegetation_condition_nores 0 0 0 0 0 0 0 0 then 1 else 0) :=
  C10_mutual_exclusion 0 0 0 0 0 0 0 0 0 0

/-- C1: in percentile mode, if the percentile computation fails for any
required channel, the analyzer result collapses and the caller falls
back to the caller-supplied fixed constants, marked `fixed_fallback`;
and in every case the threshold set reaching the Classification
Decision Engine exists and carries a present (never `none`) threshold
for each optional channel that is in use. -/
theorem C1_threshold_fallback
    (slope_pct cp_pct cn_pct : Option ℚ) (residual_present : Bool)
    (rp_pct rn_pct : Option ℚ) (texture_present : Bool) (vp_pct ep_pct : Option ℚ)
    (checkTexture : Bool) (uiSlope uiCurvature uiResidual uiVariance uiEntropy : ℚ) :
    (percentile_failure slope_pct cp_pct cn_pct residual_present rp_pct rn_pct
        texture_present vp_pct ep_pct →
      analyze_geomorphometric_statistics true slope_pct cp_pct cn_pct residual_present
          rp_pct rn_pct texture_present vp_pct ep_pct checkTexture uiVariance uiEntropy = none ∧
      determine_thresholds_percentile texture_present
          (analyze_geomorphometric_statistics true slope_pct cp_pct cn_pct residual_present
            rp_pct rn_pct texture_present vp_pct ep_pct checkTexture uiVariance uiEntropy)
          uiSlope uiCurvature uiResidual uiVariance uiEntropy =
        some (fixed_fallback_thresholds uiSlope uiCurvature uiResidual uiVariance uiEntropy)) ∧
    (∃ t, determine_thresholds_percentile texture_present
          (analyze_geomorphometric_statistics true slope_pct cp_pct cn_pct residual_present
            rp_pct rn_pct texture_present vp_pct ep_pct checkTexture uiVariance uiEntropy)
          uiSlope uiCurvature uiResidual uiVariance uiEntropy = some t ∧
      (residual_present = true → t.residual_threshold ≠ none) ∧
      (texture_present = true → t.variance_threshold ≠ none ∧ t.entropy_threshold ≠ none)) := by
  have hnone : percentile_failure slope_pct cp_pct cn_pct residual_present rp_pct rn_pct
      texture_present vp_pct ep_pct →
      analyze_geomorphometric_statistics true slope_pct cp_pct cn_pct residual_present
        rp_pct rn_pct texture_present vp_pct ep_pct checkTexture uiVariance uiEntropy = none := by
    intro hfail
    rcases hfail with h | h | h | ⟨hr, h | h⟩ | ⟨ht, h | h⟩ <;> subst_vars <;>
      (try cases residual_present) <;> (try cases texture_present) <;>
      (try cases slope_pct) <;> (try cases cp_pct) <;> (try cases cn_pct) <;>
      (try cases rp_pct) <;> (try cases rn_pct) <;> (try cases vp_pct) <;>
      (try cases ep_pct) <;> rfl
  constructor
  · intro hfail
    refine ⟨hnone hfail, ?_⟩
    rw [hnone hfail]
    rfl
  · by_cases hfail : percentile_failure slope_pct cp_pct cn_pct residual_present rp_pct rn_pct
        texture_present vp_pct ep_pct
    · refine ⟨fixed_fallback_thresholds uiSlope uiCurvature uiResidual uiVariance uiEntropy,
        ?_, ?_, ?_⟩
      · rw [hnone hfail]
        rfl
      · intro _
        simp [fixed_fallback_thresholds]
      · intro _
        simp [fixed_fallback_thresholds]
    · rw [percentile_failure] at hfail
      push_neg at hfail
      obtain ⟨h1, h2, h3, h4, h5⟩ := hfail
      obtain ⟨s, rfl⟩ := Option.ne_none_iff_exists.mp h1
      obtain ⟨cp, rfl⟩ := Option.ne_none_iff_exists.mp h2
      obtain ⟨cn, rfl⟩ := Option.ne_none_iff_exists.mp h3
      cases residual_present with
      | true =>
          obtain ⟨hrp, hrn⟩ := h4 rfl
          obtain ⟨rp, rfl⟩ := Option.ne_none_iff_exists.mp hrp
          obtain ⟨rn, rfl⟩ := Option.ne_none_iff_exists.mp hrn
          cases texture_present with
          | true =>
              obtain ⟨hvp, hep⟩ := h5 rfl
              obtain ⟨vp, rfl⟩ := Option.ne_none_iff_exists.mp hvp
              obtain ⟨ep, rfl⟩ := Option.ne_none_iff_exists.mp hep
              exact ⟨_, rfl, fun _ => by simp [fixed_fallback_thresholds],
                fun _ => by simp [fixed_fallback_thresholds]⟩
          | false =>
              cases checkTexture <;>
                exact ⟨_, rfl, fun _ => by simp [fixed_fallback_thresholds],
                  fun h => by simp at h⟩
      | false =>
          cases texture_present with
          | true =>
              obtain ⟨hvp, hep⟩ := h5 rfl
              obtain ⟨vp, rfl⟩ := Option.ne_none_iff_exists.mp hvp
              obtain ⟨ep, rfl⟩ := Option.ne_none_iff_exists.mp hep
              exact ⟨_, rfl, fun h => by simp at h,
                fun _ => by simp [fixed_fallback_thresholds]⟩
          | false =>
              cases checkTexture <;>
                exact ⟨_, rfl, fun h => by simp at h, fun h => by simp at h⟩

/-- Witness for C1 with a failed slope percentile, residuals and
texture present, and fixed UI constants 10, 20, 30, 40, 50. -/
theorem C1_threshold_fallback_witness :
    (percentile_failure none (some 1) (some 2) true (some 3) (some 4) true (some 5) (some 6) →
      analyze_geomorphometric_statistics true none (some 1) (some 2) true (some 3) (some 4)
          true (some 5) (some 6) false 40 50 = none ∧
      determine_thresholds_percentile true
          (analyze_geomorphometric_statistics true none (some 1) (some 2) true (some 3) (some 4)
            true (some 5) (some 6) false 40 50) 10 20 30 40 50 =
        some (fixed_fallback_thresholds 10 20 30 40 50)) ∧
    (∃ t, determine_thresholds_percentile true
          (analyze_geomorphometric_statistics true none (some 1) (some 2) true (some 3) (some 4)
            true (some 5) (some 6) false 40 50) 10 20 30 40 50 = some t ∧
      (true = true → t.residual_threshold ≠ none) ∧
      (true = true → t.variance_threshold ≠ none ∧ t.entropy_threshold ≠ none)) :=
  C1_threshold_fallback none (some 1) (some 2) true (some 3) (some 4) true (some 5) (some 6)
    false 10 20 30 40 50

/-- C7: when the configured buffer distance is exactly 0, the buffering
stage is skipped and the buffered-mask output is pixel-identical to the
pre-buffer label-derived mask, whatever the providers would do. -/
theorem C7_buffer_zero_identity {Pix : Type} (pixel_size : ℚ) (use_texture fA fV : Bool)
    (label : Pix → Option ℚ)
    (grass_buffer : ℤ → (Pix → Option ℚ) → Option (Pix → Option ℚ))
    (gdal_proximity_buffer : ℚ → (Pix → Option ℚ) → Option (Pix → Option ℚ))
    (buffer_distance : ℚ) (h : buffer_distance = 0) :
    buffering_stage buffer_distance pixel_size use_texture fA fV label
        grass_buffer gdal_proximity_buffer =
      label_derived_mask use_texture fA fV label := by
  subst h
  unfold buffering_stage
  simp

/-- Witness for C7 on a one-pixel grid labelled 2 with providers that
always fail. -/
theorem C7_buffer_zero_identity_witness :
    (0 : ℚ) = 0 ∧
    buffering_stage (0 : ℚ) 1 true true false (fun _ : Unit => some 2)
        (fun _ _ => none) (fun _ _ => none) =
      label_derived_mask true true false (fun _ : Unit => some 2) :=
  ⟨rfl, C7_buffer_zero_identity 1 true true false (fun _ => some 2)
    (fun _ _ => none) (fun _ _ => none) 0 rfl⟩

/-- C9 (amended): a flat input aborts the run before any stage, and
exhaustion of every curvature alternative aborts it; but these are not
the only fatal conditions — slope derivation failure also aborts — while
the residual, texture and threshold-analysis stages degrade through
their fallbacks without affecting completion. -/
theorem C9_fatal_conditions (env : RunEnv) :
    (env.flat_input = true → run_reconstruction env = .aborted_invalid_input) ∧
    (env.flat_input = false → env.smoothing_load_ok = true → env.slope_ok = true →
      env.curvature_qgis_ok = false → env.curvature_grass_ok = false →
      env.curvature_saga_ok = false →
      run_reconstruction env = .aborted_no_curvature) ∧
    (env.flat_input = false → env.smoothing_load_ok = true → env.slope_ok = true →
      (env.curvature_qgis_ok || env.curvature_grass_ok || env.curvature_saga_ok) = true →
      env.classification_ok = true →
      (if env.buffer_distance_zero then env.buffer_zero_ok
        else env.buffer_grass_ok || env.buffer_proximity_ok || env.buffer_copy_ok) = true →
      env.masking_ok = true →
      (env.interp_selected_ok || env.interp_simple_ok || env.interp_copy_ok) = true →
      run_reconstruction env = .completed) := by
  refine ⟨?_, ?_, ?_⟩
  · intro h
    simp [run_reconstruction, h]
  · intro h1 h2 h3 h4 h5 h6
    simp [run_reconstruction, h1, h2, h3, h4, h5, h6]
  · intro h1 h2 h3 h4 h5 h6 h7 h8
    simp only [run_reconstruction, h1, h2, h3, h4, h5, h6, h7, h8, Bool.not_true,
      Bool.false_eq_true, if_false, if_true, Bool.not_false]

/-- Witness for C9 on the degraded environment: valid input, working
slope/curvature/classification/masking, failed residual, texture,
analysis and primary interpolation chains; the run completes. -/
theorem C9_fatal_conditions_witness :
    (env_degraded.flat_input = false ∧ env_degraded.smoothing_load_ok = true ∧
     env_degraded.slope_ok = true ∧
     (env_degraded.curvature_qgis_ok || env_degraded.curvature_grass_ok ||
       env_degraded.curvature_saga_ok) = true ∧
     env_degraded.classification_ok = true ∧
     (if env_degraded.buffer_distance_zero then env_degraded.buffer_zero_ok
       else env_degraded.buffer_grass_ok || env_degraded.buffer_proximity_ok ||
         env_degraded.buffer_copy_ok) = true ∧
     env_degraded.masking_ok = true ∧
     (env_degraded.interp_selected_ok || env_degraded.interp_simple_ok ||
       env_degraded.interp_copy_ok) = true) ∧
    run_reconstruction env_degraded = .completed :=
  ⟨⟨rfl, rfl, rfl, rfl, rfl, rfl, rfl, rfl⟩,
   (C9_fatal_conditions env_degraded).2.2 rfl rfl rfl rfl rfl rfl rfl rfl⟩

/-- C9 counterexample: in `env_slope_failure` the input is not flat and
every curvature alternative is available, yet the run aborts (at the
slope stage) — so flat input and curvature exhaustion are not the only
fatal conditions. -/
theorem C9_counterexample :
    env_slope_failure.flat_input = false ∧
    env_slope_failure.curvature_qgis_ok = true ∧
    run_reconstruction env_slope_failure = .aborted "slope" ∧
    run_reconstruction env_slope_failure ≠ .completed := by
  have habort : run_reconstruction env_slope_failure = .aborted "slope" := rfl
  refine ⟨rfl, rfl, habort, ?_⟩
  rw [habort]
  intro h
  exact RunOutcome.noConfusion h

end BareEarth
